import Mathlib

/-!
Verification of the capture coordinate-transformation and
self-capture-avoidance pipeline of `src/main.js`.

Shallow embedding conventions:
* JavaScript numbers that carry coordinates are modelled as rationals (`ℚ`);
  all arithmetic appearing in the source on these values is exact rational
  arithmetic for the inputs of interest.
* `Math.round` is modelled by `jsRound` below: JavaScript rounds half-way
  values toward positive infinity, i.e. `Math.round x = ⌊x + 1/2⌋`.
* The mutable manager objects (`CoordinateSystemManager`,
  `SelfCapturePreventionManager`) become immutable state values with
  state-passing functions.
* The asynchronous orchestration (`processAreaCapture`, `captureScreen`,
  the `area-selected` IPC handler, `processOCR`) is modelled as an event
  trace: each run of the orchestration, for a given injected outcome of the
  fallible OS capture step and of the OCR step, produces the list of
  hide/restore/emit events in the order the code performs them, together
  with the terminal result.
-/

/-- A rectangle `{x, y, width, height}` with rational (JS-number) fields,
as passed around by `main.js` for raw bounds, actual bounds and window
bounds. -/
structure Rect where
  x : ℚ
  y : ℚ
  width : ℚ
  height : ℚ
deriving DecidableEq, Repr

/-- A rectangle whose components have been rounded to integers
(`Math.round` output), as produced for `scaledBounds` and
`thumbnailBounds` in `main.js`. -/
structure IntRect where
  x : ℤ
  y : ℤ
  width : ℤ
  height : ℤ
deriving DecidableEq, Repr

/-- JavaScript `Math.round`: rounds to the nearest integer, half-way cases
toward positive infinity: `Math.round x = ⌊x + 1/2⌋`. -/
def jsRound (q : ℚ) : ℤ := ⌊q + 1 / 2⌋

/-- The display information captured by
`CoordinateSystemManager.initialize` (main.js 1238-1253) from
`screen.getPrimaryDisplay()`: scale factor, full display bounds and work
area, all in logical pixels. -/
structure DisplayInfo where
  scaleFactor : ℚ
  bounds : Rect
  workArea : Rect
deriving DecidableEq, Repr

/-- `menuBarHeight` as computed in `CoordinateSystemManager.initialize`
(main.js 1244-1248):
`bounds.y + (bounds.height - workArea.height - workArea.y)`. -/
def DisplayInfo.menuBarHeight (d : DisplayInfo) : ℚ :=
  d.bounds.y + (d.bounds.height - d.workArea.height - d.workArea.y)

/-- `CoordinateSystemManager.transformBounds` (main.js 1259-1308).
`overlayBounds` models the `this.overlayBounds` field: `some _` when the
selection came from the overlay window (set by the `area-selected` handler
at main.js 1748), `none` when it came from the main window (main.js 1751).
When overlay bounds are set, the raw coordinates are used as-is ("already
global", no menu-bar adjustment); otherwise the work-area origin is added.
Every component is then multiplied by the scale factor and rounded with
`Math.round`.  Returns `(actualBounds, scaledBounds)` as the source does. -/
def transformBounds (d : DisplayInfo) (overlayBounds : Option Rect)
    (rawBounds : Rect) : Rect × IntRect :=
  let actualBounds : Rect :=
    match overlayBounds with
    | some _ => rawBounds
    | none =>
        { x := rawBounds.x + d.workArea.x
          y := rawBounds.y + d.workArea.y
          width := rawBounds.width
          height := rawBounds.height }
  let scaledBounds : IntRect :=
    { x := jsRound (actualBounds.x * d.scaleFactor)
      y := jsRound (actualBounds.y * d.scaleFactor)
      width := jsRound (actualBounds.width * d.scaleFactor)
      height := jsRound (actualBounds.height * d.scaleFactor) }
  (actualBounds, scaledBounds)

/-- The raster-crop computation inlined in `CaptureManager.captureScreen`
(main.js 1574-1600): given the scaled (physical) bounds, the display info
and the actual thumbnail dimensions reported by the OS, it divides the
scaled bounds by the scale factor to recover logical coordinates
(main.js 1585-1590) and multiplies by
`thumbnailSize / screenBounds` per axis, rounding each component with
`Math.round` (main.js 1595-1600).  The source performs no bounds
validation on the result: the rectangle is handed directly to
`processImage`. -/
def toRasterCrop (d : DisplayInfo) (scaledBounds : IntRect)
    (thumbW thumbH : ℚ) : IntRect :=
  let thumbnailScaleX : ℚ := thumbW / d.bounds.width
  let thumbnailScaleY : ℚ := thumbH / d.bounds.height
  let logicalX : ℚ := (scaledBounds.x : ℚ) / d.scaleFactor
  let logicalY : ℚ := (scaledBounds.y : ℚ) / d.scaleFactor
  let logicalW : ℚ := (scaledBounds.width : ℚ) / d.scaleFactor
  let logicalH : ℚ := (scaledBounds.height : ℚ) / d.scaleFactor
  { x := jsRound (logicalX * thumbnailScaleX)
    y := jsRound (logicalY * thumbnailScaleY)
    width := jsRound (logicalW * thumbnailScaleX)
    height := jsRound (logicalH * thumbnailScaleY) }

/-- A top-level window as the self-capture prevention code observes it:
an identity, its current bounds (`getBounds()`, logical pixels), its
visibility (`isVisible()`), and whether it has been destroyed
(`isDestroyed()`). -/
structure Win where
  winId : ℕ
  bounds : Rect
  visible : Bool
  destroyed : Bool
deriving DecidableEq, Repr

/-- One element of `SelfCapturePreventionManager.appWindows`: the source
stores `{ window, type }` wrapper objects (main.js 1328). -/
structure RegEntry where
  window : Win
  tag : String
deriving DecidableEq, Repr

/-- The state of `SelfCapturePreventionManager` (main.js 1321-1484):
`appWindows` is the iteration order of the `Set` of `{window, type}`
wrappers, and `overlayWindow` is the separately tracked overlay window.
Each `Set.add` call in the source receives a freshly allocated wrapper
object, and a JavaScript `Set` deduplicates by object reference, so the
set never deduplicates: it is faithfully a list that only grows, hence
the `List` model. -/
structure Manager where
  appWindows : List RegEntry
  overlayWindow : Option Win
deriving DecidableEq, Repr

/-- `SelfCapturePreventionManager.registerWindow` (main.js 1327-1330):
`this.appWindows.add({ window, type })` appends a fresh wrapper to the
set regardless of whether the same window and tag were registered
before. -/
def registerWindow (m : Manager) (w : Win) (t : String) : Manager :=
  { m with appWindows := m.appWindows ++ [⟨w, t⟩] }

/-- `SelfCapturePreventionManager.setOverlayWindow` (main.js 1332-1335). -/
def setOverlayWindow (m : Manager) (w : Win) : Manager :=
  { m with overlayWindow := some w }

/-- Effect of `hideAllAppWindows` on one registered window
(main.js 1353-1363): `window.hide()` is called only when the window is
non-null, not destroyed and currently visible. -/
def hideWin (w : Win) : Win :=
  if !w.destroyed && w.visible then { w with visible := false } else w

/-- Effect of `hideAllAppWindows` on the overlay window
(main.js 1343-1350): hidden whenever it exists and is not destroyed
(no visibility test on this path). -/
def hideOverlay (w : Win) : Win :=
  if !w.destroyed then { w with visible := false } else w

/-- Effect of `restoreAppWindows` on one registered window
(main.js 1375-1380): `window.show()` is called for every entry whose
window is non-null and not destroyed — unconditionally on its prior
visibility; the manager keeps no record of which windows were visible
before `hideAllAppWindows` ran. -/
def showWin (w : Win) : Win :=
  if !w.destroyed then { w with visible := true } else w

/-- `SelfCapturePreventionManager.hideAllAppWindows` (main.js 1337-1370),
as a state transformer on the registry (the settle delays have no effect
on the visibility state). -/
def hideAllAppWindows (m : Manager) : Manager :=
  { appWindows := m.appWindows.map fun e => { e with window := hideWin e.window }
    overlayWindow := m.overlayWindow.map hideOverlay }

/-- `SelfCapturePreventionManager.restoreAppWindows` (main.js 1372-1381).
The loop runs over `appWindows` only; the overlay window is never
restored by this method. -/
def restoreAppWindows (m : Manager) : Manager :=
  { m with
    appWindows := m.appWindows.map fun e => { e with window := showWin e.window } }

/-- `SelfCapturePreventionManager.boundsOverlap` (main.js 1397-1404):
the axis-aligned overlap test
`!(b1.x + b1.w < b2.x || b2.x + b2.w < b1.x || b1.y + b1.h < b2.y || b2.y + b2.h < b1.y)`. -/
def boundsOverlap (b1 b2 : Rect) : Bool :=
  !(decide (b1.x + b1.width < b2.x) || decide (b2.x + b2.width < b1.x) ||
    decide (b1.y + b1.height < b2.y) || decide (b2.y + b2.height < b1.y))

/-- `SelfCapturePreventionManager.isAppWindow` (main.js 1383-1395):
true when the candidate bounds overlap some registered window that is
non-null, not destroyed and currently visible.  Only `appWindows` is
consulted; the `overlayWindow` field plays no part. -/
def isAppWindow (m : Manager) (b : Rect) : Bool :=
  m.appWindows.any fun e =>
    !e.window.destroyed && e.window.visible && boundsOverlap b e.window.bounds

/-- Observable events of one capture attempt, in program order:
window-visibility operations, the OS capture request, and the messages the
main process sends to the main window's renderer (`ocr-complete` /
`ocr-error` are the terminal events; `capture-preview` is informational). -/
inductive Ev where
  | hideAll
  | restoreAll
  | osCapture
  | capturePreview
  | ocrComplete
  | ocrError
deriving DecidableEq, Repr

/-- Errors `processAreaCapture` can raise: the self-capture guard's
`"Cannot capture application windows"` (main.js 1520) and any failure of
the capture/crop/image-processing sequence inside `captureScreen`. -/
inductive CaptureErr where
  | selfCapture
  | captureFailed
deriving DecidableEq, Repr

/-- `CaptureManager.captureScreen` (main.js 1541-1619) as an event trace.
`capOk` is the injected outcome of the fallible section of its `try`
block (source enumeration, thumbnail handling, `processImage`): the
method first calls `hideAllAppWindows`, then attempts the capture, and
calls `restoreAppWindows` exactly once on both the success path
(main.js 1611) and the catch path (main.js 1616) before returning or
re-throwing. -/
def captureScreenTrace (capOk : Bool) : List Ev × Except CaptureErr Unit :=
  ([Ev.hideAll, Ev.osCapture, Ev.restoreAll],
   if capOk then Except.ok () else Except.error CaptureErr.captureFailed)

/-- `CaptureManager.processAreaCapture` (main.js 1506-1539) as an event
trace: transform the bounds, reject before hiding anything when the
self-capture guard fires (main.js 1518-1521), otherwise hide all windows
(main.js 1524), run `captureScreen`, and restore on both the success
path (main.js 1531) and the catch path (main.js 1536). -/
def processAreaCaptureTrace (m : Manager) (d : DisplayInfo)
    (overlayBounds : Option Rect) (raw : Rect) (capOk : Bool) :
    List Ev × Except CaptureErr Unit :=
  let actualBounds := (transformBounds d overlayBounds raw).1
  if isAppWindow m actualBounds then
    ([], Except.error CaptureErr.selfCapture)
  else
    let cs := captureScreenTrace capOk
    (Ev.hideAll :: cs.1 ++ [Ev.restoreAll], cs.2)

/-- The `area-selected` IPC handler (main.js 1686-1834) together with
`processOCR` (main.js sends at 1204 / 1219), as the trace of one attempt,
assuming the main window exists and is not destroyed.  `ocrOk` is the
injected outcome of OCR processing.  On any error from
`processAreaCapture` the handler's catch sends one `ocr-error`
(main.js 1791-1794).  On capture success it sends `capture-preview`
(main.js 1768) and runs `processOCR`: on OCR success one `ocr-complete`
(main.js 1204); on OCR failure `processOCR` itself sends `ocr-error`
(main.js 1219) and re-throws (main.js 1227), after which the handler's
catch sends a second `ocr-error` (main.js 1791-1794). -/
def areaSelectedTrace (m : Manager) (d : DisplayInfo)
    (overlayBounds : Option Rect) (raw : Rect) (capOk ocrOk : Bool) :
    List Ev :=
  let p := processAreaCaptureTrace m d overlayBounds raw capOk
  match p.2 with
  | Except.error _ => p.1 ++ [Ev.ocrError]
  | Except.ok _ =>
      p.1 ++ Ev.capturePreview ::
        (if ocrOk then [Ev.ocrComplete] else [Ev.ocrError, Ev.ocrError])

/-- Number of terminal UI events (`ocr-complete` or `ocr-error`) in a
trace. -/
def terminalCount (l : List Ev) : ℕ :=
  l.count Ev.ocrComplete + l.count Ev.ocrError


/-! ### Helper lemmas -/

/-- Rounding an integer value is the identity. -/
theorem jsRound_intCast (k : ℤ) : jsRound (k : ℚ) = k := by
  unfold jsRound
  rw [add_comm, Int.floor_add_int]
  norm_num

/-- Rounding a nonnegative value is nonnegative. -/
theorem jsRound_nonneg (q : ℚ) (h : 0 ≤ q) : 0 ≤ jsRound q := by
  unfold jsRound
  exact Int.le_floor.mpr (by push_cast; linarith)

/-- Hiding then unconditionally showing a window leaves every
non-destroyed window visible, whatever its visibility was before. -/
theorem showWin_hideWin (w : Win) :
    showWin (hideWin w) = if w.destroyed then w else { w with visible := true } := by
  cases hd : w.destroyed <;> cases hv : w.visible <;>
    simp [hideWin, showWin, hd, hv]

/-! ### Claims -/

/-- C2: for every selection coming from the overlay (overlay bounds set),
the scaled (physical) rectangle is each raw component multiplied by the
scale factor and rounded per axis with `Math.round`, and the result does
not depend on the display's work area, screen bounds or (hence) menu-bar
inset. -/
theorem c2_overlay_no_double_offset :
    ∀ (d : DisplayInfo) (ob rawBounds : Rect),
      (transformBounds d (some ob) rawBounds).2 =
        ⟨jsRound (rawBounds.x * d.scaleFactor),
         jsRound (rawBounds.y * d.scaleFactor),
         jsRound (rawBounds.width * d.scaleFactor),
         jsRound (rawBounds.height * d.scaleFactor)⟩ ∧
      ∀ (b wa : Rect),
        (transformBounds ⟨d.scaleFactor, b, wa⟩ (some ob) rawBounds).2 =
          (transformBounds d (some ob) rawBounds).2 :=
  fun _ _ _ => ⟨rfl, fun _ _ => rfl⟩

/-- C7: the raster crop divides the physical rectangle by the scale
factor and multiplies by `thumbnailSize / screenBounds` per axis, rounding
each component; on the spec's scenario (scale factor 2, 1440×900 screen,
overlay selection 591,213,231,304, raster 2880×1800) the physical
rectangle is 1182,426,462,608 and the raster crop is the same
rectangle. -/
theorem c7_raster_crop_derivation :
    (∀ (d : DisplayInfo) (sb : IntRect) (tw th : ℚ),
        toRasterCrop d sb tw th =
          ⟨jsRound ((sb.x : ℚ) / d.scaleFactor * (tw / d.bounds.width)),
           jsRound ((sb.y : ℚ) / d.scaleFactor * (th / d.bounds.height)),
           jsRound ((sb.width : ℚ) / d.scaleFactor * (tw / d.bounds.width)),
           jsRound ((sb.height : ℚ) / d.scaleFactor * (th / d.bounds.height))⟩) ∧
      (transformBounds ⟨2, ⟨0, 0, 1440, 900⟩, ⟨0, 25, 1440, 875⟩⟩
          (some ⟨0, 25, 1440, 875⟩) ⟨591, 213, 231, 304⟩).2 =
        ⟨1182, 426, 462, 608⟩ ∧
      toRasterCrop ⟨2, ⟨0, 0, 1440, 900⟩, ⟨0, 25, 1440, 875⟩⟩
          ⟨1182, 426, 462, 608⟩ 2880 1800 =
        ⟨1182, 426, 462, 608⟩ := by
  refine ⟨fun _ _ _ _ => rfl, ?_, ?_⟩ <;>
    norm_num [transformBounds, toRasterCrop, jsRound]

/-- C10: the self-capture overlap check reads only the registered
app-window list; its result is the same for any two states of the
separately tracked overlay-window field, and it is exactly the
any-visible-window-overlaps test over the registered list. -/
theorem c10_guard_ignores_overlay :
    ∀ (apps : List RegEntry) (ov ov2 : Option Win) (b : Rect),
      isAppWindow ⟨apps, ov⟩ b = isAppWindow ⟨apps, ov2⟩ b ∧
      isAppWindow ⟨apps, ov⟩ b =
        (apps.any fun e =>
          !e.window.destroyed && e.window.visible &&
            boundsOverlap b e.window.bounds) :=
  fun _ _ _ _ => ⟨rfl, rfl⟩

/-- C4 counterexample: window A (id 0) is hidden and window B (id 1) is
visible before `hideAllAppWindows`; after `restoreAppWindows` both are
visible — A does not remain hidden, contradicting the claim that prior
visibility is remembered. -/
theorem c4_counterexample :
    ((restoreAppWindows (hideAllAppWindows
        ⟨[⟨⟨0, ⟨0, 0, 10, 10⟩, false, false⟩, "main"⟩,
          ⟨⟨1, ⟨20, 0, 10, 10⟩, true, false⟩, "auxiliary"⟩], none⟩)).appWindows.map
        fun e => e.window.visible) = [true, true] ∧
      ¬((restoreAppWindows (hideAllAppWindows
        ⟨[⟨⟨0, ⟨0, 0, 10, 10⟩, false, false⟩, "main"⟩,
          ⟨⟨1, ⟨20, 0, 10, 10⟩, true, false⟩, "auxiliary"⟩], none⟩)).appWindows.map
        fun e => e.window.visible) = [false, true] := by
  constructor <;> decide

/-- C4 amended: `restoreAppWindows` after `hideAllAppWindows` shows every
registered non-destroyed window unconditionally — prior visibility is not
remembered.  A window that was visible before `hideAllAppWindows` is
visible again (as the claim requires of B), but a window that was hidden
before `hideAllAppWindows` is also made visible (contradicting what the
claim requires of A); destroyed windows are untouched. -/
theorem c4_amended_restore_shows_all :
    ∀ m : Manager,
      (restoreAppWindows (hideAllAppWindows m)).appWindows =
        m.appWindows.map fun e =>
          if e.window.destroyed then e
          else { e with window := { e.window with visible := true } } := by
  intro m
  simp only [restoreAppWindows, hideAllAppWindows, List.map_map]
  refine List.map_congr_left fun e _ => ?_
  simp only [Function.comp_apply, showWin_hideWin]
  cases hd : e.window.destroyed <;> simp [hideWin, hd]

/-- C9 counterexample: registering the same window with the same tag twice
does not leave the registry as a single registration would — a second,
duplicate entry is added (the JavaScript `Set` holds a fresh
`{window, type}` wrapper per call, compared by reference). -/
theorem c9_counterexample :
    registerWindow (registerWindow ⟨[], none⟩
        ⟨0, ⟨0, 0, 10, 10⟩, true, false⟩ "main")
        ⟨0, ⟨0, 0, 10, 10⟩, true, false⟩ "main" ≠
      registerWindow ⟨[], none⟩ ⟨0, ⟨0, 0, 10, 10⟩, true, false⟩ "main" := by
  decide

/-- C9 amended: `registerWindow` always appends a fresh `{window, type}`
entry, so registration is not idempotent: registering the same handle and
tag twice grows the registry by two entries, and the window is then
processed once per entry by the hide/restore loops.  (No `unregister`
method exists in the source.) -/
theorem c9_amended_register_appends :
    ∀ (m : Manager) (w : Win) (t : String),
      (registerWindow m w t).appWindows = m.appWindows ++ [⟨w, t⟩] ∧
      (registerWindow (registerWindow m w t) w t).appWindows.length =
        m.appWindows.length + 2 := by
  intro m w t
  refine ⟨rfl, ?_⟩
  simp [registerWindow]

/-- C1 counterexample: a concrete attempt (empty registry, so the guard
passes; capture fails) in which `restoreAppWindows` is called twice —
once by `captureScreen`'s catch and once by `processAreaCapture`'s
catch — not exactly once. -/
theorem c1_counterexample :
    (processAreaCaptureTrace ⟨[], none⟩ ⟨2, ⟨0, 0, 1440, 900⟩, ⟨0, 25, 1440, 875⟩⟩
        none ⟨0, 0, 100, 100⟩ false).1.count Ev.restoreAll = 2 ∧
      ¬((processAreaCaptureTrace ⟨[], none⟩ ⟨2, ⟨0, 0, 1440, 900⟩, ⟨0, 25, 1440, 875⟩⟩
        none ⟨0, 0, 100, 100⟩ false).1.count Ev.restoreAll = 1) := by
  constructor <;> decide

/-- C1 amended: on every attempt in which the windows were hidden (the
self-capture guard passed), and for every outcome — capture/crop failure,
OCR failure, or success — `restoreAppWindows` is called exactly twice
(once inside `captureScreen`, once by `processAreaCapture`), and every
restore call precedes the first terminal event surfaced to the caller;
at least one terminal event follows. -/
theorem c1_amended_restore_twice :
    ∀ (m : Manager) (d : DisplayInfo) (ovb : Option Rect) (raw : Rect)
      (capOk ocrOk : Bool),
      isAppWindow m (transformBounds d ovb raw).1 = false →
      (areaSelectedTrace m d ovb raw capOk ocrOk).count Ev.restoreAll = 2 ∧
      ((areaSelectedTrace m d ovb raw capOk ocrOk).takeWhile
          fun e => !(e == Ev.ocrComplete || e == Ev.ocrError)).count Ev.restoreAll = 2 ∧
      1 ≤ terminalCount (areaSelectedTrace m d ovb raw capOk ocrOk) := by
  intro m d ovb raw capOk ocrOk h
  cases capOk <;> cases ocrOk <;>
    simp [areaSelectedTrace, processAreaCaptureTrace, captureScreenTrace,
      terminalCount, h]

/-- C1 witness: the amended claim at a concrete attempt (empty registry,
capture fails, OCR never runs). -/
theorem c1_witness :
    (areaSelectedTrace ⟨[], none⟩ ⟨2, ⟨0, 0, 1440, 900⟩, ⟨0, 25, 1440, 875⟩⟩
        none ⟨0, 0, 100, 100⟩ false false).count Ev.restoreAll = 2 ∧
    ((areaSelectedTrace ⟨[], none⟩ ⟨2, ⟨0, 0, 1440, 900⟩, ⟨0, 25, 1440, 875⟩⟩
        none ⟨0, 0, 100, 100⟩ false false).takeWhile
        fun e => !(e == Ev.ocrComplete || e == Ev.ocrError)).count Ev.restoreAll = 2 ∧
    1 ≤ terminalCount (areaSelectedTrace ⟨[], none⟩
        ⟨2, ⟨0, 0, 1440, 900⟩, ⟨0, 25, 1440, 875⟩⟩
        none ⟨0, 0, 100, 100⟩ false false) :=
  c1_amended_restore_twice _ _ _ _ _ _ rfl

/-- C6: whenever the transformed (actual) bounds overlap a registered,
visible, non-destroyed window, `processAreaCapture` raises the
self-capture rejection before anything else happens: the trace is empty —
in particular `hideAllAppWindows` is never invoked — and the terminal
result is the `"Cannot capture application windows"` error. -/
theorem c6_selfcapture_short_circuits :
    ∀ (m : Manager) (d : DisplayInfo) (ovb : Option Rect) (raw : Rect)
      (capOk : Bool),
      isAppWindow m (transformBounds d ovb raw).1 = true →
      (processAreaCaptureTrace m d ovb raw capOk).1.count Ev.hideAll = 0 ∧
      (processAreaCaptureTrace m d ovb raw capOk).1 = [] ∧
      (processAreaCaptureTrace m d ovb raw capOk).2 =
        Except.error CaptureErr.selfCapture := by
  intro m d ovb raw capOk h
  simp [processAreaCaptureTrace, h]

/-- C6 witness: a registry holding one visible window at 0,0,100,100 and
an overlay selection at 10,10,20,20 that overlaps it: the attempt
performs no hide and terminates with the self-capture rejection. -/
theorem c6_witness :
    (processAreaCaptureTrace
        ⟨[⟨⟨1, ⟨0, 0, 100, 100⟩, true, false⟩, "main"⟩], none⟩
        ⟨2, ⟨0, 0, 1440, 900⟩, ⟨0, 25, 1440, 875⟩⟩
        (some ⟨0, 25, 1440, 875⟩) ⟨10, 10, 20, 20⟩ true).1.count Ev.hideAll = 0 ∧
    (processAreaCaptureTrace
        ⟨[⟨⟨1, ⟨0, 0, 100, 100⟩, true, false⟩, "main"⟩], none⟩
        ⟨2, ⟨0, 0, 1440, 900⟩, ⟨0, 25, 1440, 875⟩⟩
        (some ⟨0, 25, 1440, 875⟩) ⟨10, 10, 20, 20⟩ true).1 = [] ∧
    (processAreaCaptureTrace
        ⟨[⟨⟨1, ⟨0, 0, 100, 100⟩, true, false⟩, "main"⟩], none⟩
        ⟨2, ⟨0, 0, 1440, 900⟩, ⟨0, 25, 1440, 875⟩⟩
        (some ⟨0, 25, 1440, 875⟩) ⟨10, 10, 20, 20⟩ true).2 =
      Except.error CaptureErr.selfCapture :=
  c6_selfcapture_short_circuits _ _ _ _ _ (by
    norm_num [isAppWindow, boundsOverlap, transformBounds])

/-- C8 counterexample: a concrete attempt in which the capture succeeds
and OCR fails; two terminal `ocr-error` events are emitted (one by
`processOCR` before it re-throws, one by the `area-selected` handler's
catch), not exactly one. -/
theorem c8_counterexample :
    terminalCount (areaSelectedTrace ⟨[], none⟩
        ⟨2, ⟨0, 0, 1440, 900⟩, ⟨0, 25, 1440, 875⟩⟩
        none ⟨0, 0, 100, 100⟩ true false) = 2 ∧
      ¬(terminalCount (areaSelectedTrace ⟨[], none⟩
        ⟨2, ⟨0, 0, 1440, 900⟩, ⟨0, 25, 1440, 875⟩⟩
        none ⟨0, 0, 100, 100⟩ true false) = 1) := by
  constructor <;> decide

/-- C8 amended: each attempt emits exactly one terminal event
(`ocr-complete` or `ocr-error`) on the rejection path, on the
capture-failure path and on the fully successful path; on the path where
OCR fails after a successful capture it emits exactly two (both
`ocr-error`: one from `processOCR`, which re-throws, and one from the
`area-selected` handler's catch).  Never zero. -/
theorem c8_amended_terminal_events :
    ∀ (m : Manager) (d : DisplayInfo) (ovb : Option Rect) (raw : Rect)
      (capOk ocrOk : Bool),
      terminalCount (areaSelectedTrace m d ovb raw capOk ocrOk) =
        if isAppWindow m (transformBounds d ovb raw).1 = false ∧
            capOk = true ∧ ocrOk = false
        then 2 else 1 := by
  intro m d ovb raw capOk ocrOk
  cases hg : isAppWindow m (transformBounds d ovb raw).1 <;>
    cases capOk <;> cases ocrOk <;>
      simp [areaSelectedTrace, processAreaCaptureTrace, captureScreenTrace,
        terminalCount, hg]

/-- C3 counterexample: a crop computation whose result violates the
raster-bounds invariant (x + width = 3200 > 2880) is returned as an
ordinary rectangle; no bounds check exists in the source and no
`OutOfBoundsError` is raised. -/
theorem c3_counterexample :
    toRasterCrop ⟨2, ⟨0, 0, 1440, 900⟩, ⟨0, 25, 1440, 875⟩⟩
        ⟨2800, 0, 400, 400⟩ 2880 1800 = ⟨2800, 0, 400, 400⟩ ∧
      ¬((toRasterCrop ⟨2, ⟨0, 0, 1440, 900⟩, ⟨0, 25, 1440, 875⟩⟩
          ⟨2800, 0, 400, 400⟩ 2880 1800).x +
        (toRasterCrop ⟨2, ⟨0, 0, 1440, 900⟩, ⟨0, 25, 1440, 875⟩⟩
          ⟨2800, 0, 400, 400⟩ 2880 1800).width ≤ 2880) := by
  constructor <;> norm_num [toRasterCrop, jsRound]

/-- C3 amended: the raster-crop computation is total and performs no
bounds validation.  The lower-bound half of the invariant does hold
whenever the inputs are nonnegative (`0 ≤ x` and `0 ≤ y`), but the
upper-bound half (`x + width ≤ rasterWidth`, `y + height ≤ rasterHeight`)
is not enforced: a violating input yields an out-of-range rectangle
instead of an `OutOfBoundsError`. -/
theorem c3_amended_no_bounds_check :
    (∀ (d : DisplayInfo) (sb : IntRect) (tw th : ℚ),
        0 ≤ sb.x → 0 ≤ sb.y → 0 ≤ d.scaleFactor →
        0 ≤ d.bounds.width → 0 ≤ d.bounds.height → 0 ≤ tw → 0 ≤ th →
        0 ≤ (toRasterCrop d sb tw th).x ∧ 0 ≤ (toRasterCrop d sb tw th).y) ∧
      2880 < (toRasterCrop ⟨2, ⟨0, 0, 1440, 900⟩, ⟨0, 25, 1440, 875⟩⟩
          ⟨2800, 0, 400, 400⟩ 2880 1800).x +
        (toRasterCrop ⟨2, ⟨0, 0, 1440, 900⟩, ⟨0, 25, 1440, 875⟩⟩
          ⟨2800, 0, 400, 400⟩ 2880 1800).width := by
  constructor
  · intro d sb tw th hx hy hsf hbw hbh htw hth
    constructor
    · exact jsRound_nonneg _ (mul_nonneg
        (div_nonneg (by exact_mod_cast hx) hsf) (div_nonneg htw hbw))
    · exact jsRound_nonneg _ (mul_nonneg
        (div_nonneg (by exact_mod_cast hy) hsf) (div_nonneg hth hbh))
  · norm_num [toRasterCrop, jsRound]

/-- C3 witness: the amended claim's lower-bound part at the spec's
scenario input (physical 1182,426,462,608 on the 2×, 1440×900 display,
raster 2880×1800). -/
theorem c3_witness :
    0 ≤ (toRasterCrop ⟨2, ⟨0, 0, 1440, 900⟩, ⟨0, 25, 1440, 875⟩⟩
        ⟨1182, 426, 462, 608⟩ 2880 1800).x ∧
    0 ≤ (toRasterCrop ⟨2, ⟨0, 0, 1440, 900⟩, ⟨0, 25, 1440, 875⟩⟩
        ⟨1182, 426, 462, 608⟩ 2880 1800).y :=
  c3_amended_no_bounds_check.1 _ _ _ _ (by decide) (by decide) (by norm_num)
    (by norm_num) (by norm_num) (by norm_num) (by norm_num)

/-- C5 counterexample: on a display with scale factor 3/2 and work-area
origin 0, the window-relative selection with x = 1 is transformed to
`Math.round(1.5) = 2` physical pixels, and `2 / 1.5 − 1 = 1/3`, which is
not the work-area offset 0 — the claimed exact equality fails because of
per-axis rounding. -/
theorem c5_counterexample :
    (transformBounds ⟨3 / 2, ⟨0, 0, 1440, 900⟩, ⟨0, 0, 1440, 875⟩⟩
        none ⟨1, 1, 10, 10⟩).2.x = 2 ∧
      ¬(((transformBounds ⟨3 / 2, ⟨0, 0, 1440, 900⟩, ⟨0, 0, 1440, 875⟩⟩
          none ⟨1, 1, 10, 10⟩).2.x : ℚ) / (3 / 2) - 1 = 0) := by
  constructor <;> norm_num [transformBounds, jsRound]

/-- C5 amended: for window-relative selections the transformation adds
the work-area origin (not the full screen-bounds origin and not the
menu-bar inset) to x/y before scaling, so the physical x is
`Math.round((s.x + workArea.x) · scaleFactor)` (same for y); the claimed
exact identity `physical.x / scaleFactor − s.x = workArea.x` holds
whenever the scaled value needs no rounding, i.e. whenever
`(s.x + workArea.x) · scaleFactor` is an integer (for example with
integer coordinates and an integer scale factor), and can otherwise be
off by the rounding, as the counterexample shows. -/
theorem c5_amended_workarea_offset :
    ∀ (d : DisplayInfo) (raw : Rect),
      (transformBounds d none raw).2.x =
        jsRound ((raw.x + d.workArea.x) * d.scaleFactor) ∧
      (transformBounds d none raw).2.y =
        jsRound ((raw.y + d.workArea.y) * d.scaleFactor) ∧
      (d.scaleFactor ≠ 0 →
        (∀ k : ℤ, (raw.x + d.workArea.x) * d.scaleFactor = (k : ℚ) →
          ((transformBounds d none raw).2.x : ℚ) / d.scaleFactor - raw.x =
            d.workArea.x) ∧
        (∀ k : ℤ, (raw.y + d.workArea.y) * d.scaleFactor = (k : ℚ) →
          ((transformBounds d none raw).2.y : ℚ) / d.scaleFactor - raw.y =
            d.workArea.y)) := by
  intro d raw
  refine ⟨rfl, rfl, fun hsf => ⟨fun k hk => ?_, fun k hk => ?_⟩⟩
  · have h1 : (transformBounds d none raw).2.x = k := by
      show jsRound ((raw.x + d.workArea.x) * d.scaleFactor) = k
      rw [hk, jsRound_intCast]
    rw [h1, ← hk, mul_div_cancel_right₀ _ hsf, add_sub_cancel_left]
  · have h1 : (transformBounds d none raw).2.y = k := by
      show jsRound ((raw.y + d.workArea.y) * d.scaleFactor) = k
      rw [hk, jsRound_intCast]
    rw [h1, ← hk, mul_div_cancel_right₀ _ hsf, add_sub_cancel_left]

/-- C5 witness: the spec's window-relative scenario — selection
100,100,200,150 on the 2×, work-area-origin-(0,25) display — where the
scaled values are integers: physical x is 200 with 200/2 − 100 = 0 (the
work-area x) and physical y is 250 with 250/2 − 100 = 25 (the work-area
y). -/
theorem c5_witness :
    ((transformBounds ⟨2, ⟨0, 0, 1440, 900⟩, ⟨0, 25, 1440, 875⟩⟩
        none ⟨100, 100, 200, 150⟩).2.x : ℚ) / 2 - 100 = 0 ∧
    ((transformBounds ⟨2, ⟨0, 0, 1440, 900⟩, ⟨0, 25, 1440, 875⟩⟩
        none ⟨100, 100, 200, 150⟩).2.y : ℚ) / 2 - 100 = 25 :=
  ⟨((c5_amended_workarea_offset _ _).2.2 (by norm_num)).1 200 (by norm_num),
   ((c5_amended_workarea_offset _ _).2.2 (by norm_num)).2 250 (by norm_num)⟩
